import Mathlib

/-!
Shallow embedding of the `mrxpoint/cly` repository (TypeScript) for
specification checking.  The development covers three modules:

* `RiskEngine` (risk scoring of Solana events),
* `EventBroadcaster` (WebSocket client registry + queued broadcasts),
* `EventNormalizer` (raw Solana transaction → unified event).

Numbers that the TypeScript code manipulates as JS numbers are modelled as
`ℚ` (the risk scores are small decimal fractions, far from any floating
point boundary used by the code's comparisons), counters as `Nat` and
strings as `String`.  Event emission (`this.emit(...)`) is modelled as an
append-only event log carried in the state.
-/

namespace Risk

/-- `RiskLevel` enum from the risk engine. -/
inductive RiskLevel where
  | MINIMAL
  | LOW
  | MEDIUM
  | HIGH
  | CRITICAL
deriving DecidableEq, Repr

/-- `RiskFactor` interface: one contributing factor of a risk score. -/
structure RiskFactor where
  name : String
  weight : ℚ
  value : ℚ
  description : String
deriving DecidableEq, Repr

/-- `RiskScore` result (the `timestamp : string` field of the TS interface is
a wall-clock reading, irrelevant to the claims, and is omitted). -/
structure RiskScore where
  score : ℚ
  level : RiskLevel
  factors : List RiskFactor
deriving DecidableEq, Repr

/-- `EventData` input.  Optional TS fields are `Option`; the index-signature
extra fields are not read by the engine and are omitted. -/
structure EventData where
  signature : String
  timestamp : Int
  amount : Option ℚ := none
  programId : Option String := none
  eventType : String
  sender : Option String := none
  receiver : Option String := none
deriving DecidableEq, Repr

/-- `String.prototype.toLowerCase()` (character-wise ASCII lowering; the
strings the engine compares are ASCII). -/
def strToLower (s : String) : String := String.mk (s.data.map Char.toLower)

/-- `MAX_SAFE_AMOUNT = 1000000000` (1 billion lamports). -/
def MAX_SAFE_AMOUNT : ℚ := 1000000000

/-- `SUSPICIOUS_PROGRAMS` — the set is empty in the source. -/
def SUSPICIOUS_PROGRAMS : List String := []

/-- `evaluateAmount`.  The TS parameter has type `number`, so its
`amount === undefined || amount === null` guard is unreachable and the
function always returns a factor; the `Option` return type mirrors the
declared `RiskFactor | null`. -/
def evaluateAmount (amount : ℚ) : Option RiskFactor :=
  let value : ℚ :=
    if amount = 0 then 1/10
    else if amount > MAX_SAFE_AMOUNT then 8/10
    else if amount > MAX_SAFE_AMOUNT * (5/10) then 5/10
    else 1/10
  some { name := "Amount Risk"
         weight := 3/10
         value := value
         description := "Transaction amount evaluated for risk" }

/-- `evaluateProgram`: `null` when `programId` is falsy (empty string). -/
def evaluateProgram (programId : String) : Option RiskFactor :=
  if programId = "" then none
  else
    let value : ℚ :=
      if SUSPICIOUS_PROGRAMS.contains programId then 9/10
      else if (strToLower programId) = "unknown" then 7/10
      else 2/10
    some { name := "Program Risk"
           weight := 35/100
           value := value
           description := "Program evaluated for risk" }

/-- `evaluateEventType`: always returns a factor. -/
def evaluateEventType (eventType : String) : RiskFactor :=
  let value : ℚ :=
    if (strToLower eventType) = "transfer" then 2/10
    else if (strToLower eventType) = "swap" then 3/10
    else if (strToLower eventType) = "liquidation" then 6/10
    else if (strToLower eventType) = "flash_loan" then 8/10
    else if (strToLower eventType) = "unknown" then 5/10
    else 3/10
  { name := "Event Type Risk"
    weight := 35/100
    value := value
    description := "Event type evaluated for risk" }

/-- `scoreToLevel`: fixed threshold buckets. -/
def scoreToLevel (score : ℚ) : RiskLevel :=
  if score < 2/10 then .MINIMAL
  else if score < 4/10 then .LOW
  else if score < 6/10 then .MEDIUM
  else if score < 8/10 then .HIGH
  else .CRITICAL

/-- `Math.max` on two rationals (NaN behaviour out of scope). -/
def jsMax (a b : ℚ) : ℚ := if a < b then b else a

/-- `Math.min` on two rationals. -/
def jsMin (a b : ℚ) : ℚ := if b < a then b else a

/-- Accumulate an optional factor into (factors, weighted sum, weight sum),
mirroring the `if (factor) { ... }` blocks of `evaluateEvent`. -/
def accFactor (acc : List RiskFactor × ℚ × ℚ) (f : Option RiskFactor) :
    List RiskFactor × ℚ × ℚ :=
  match f with
  | none => acc
  | some fac => (acc.1 ++ [fac], acc.2.1 + fac.value * fac.weight, acc.2.2 + fac.weight)

/-- `evaluateEvent`: the amount factor is computed from
`eventData.amount ?? 0` (an absent amount is forwarded as `0`), then the
score is the weighted mean of the collected factors, clamped to `[0,1]`. -/
def evaluateEvent (eventData : EventData) : RiskScore :=
  let a0 : List RiskFactor × ℚ × ℚ := ([], 0, 0)
  let a1 := accFactor a0 (evaluateAmount (eventData.amount.getD 0))
  let a2 := accFactor a1 (evaluateProgram (eventData.programId.getD ""))
  let a3 := accFactor a2 (some (evaluateEventType eventData.eventType))
  let score : ℚ := if a3.2.2 > 0 then a3.2.1 / a3.2.2 else 0
  let normalizedScore := jsMin (jsMax score 0) 1
  { score := normalizedScore
    level := scoreToLevel normalizedScore
    factors := a3.1 }

/-- Modelled from the spec (comparison definition, not from the source):
the weighted mean in which an absent `amount` contributes no amount factor
at all — excluded from numerator and denominator alike. -/
def specEvaluateEvent (eventData : EventData) : RiskScore :=
  let a0 : List RiskFactor × ℚ × ℚ := ([], 0, 0)
  let a1 := accFactor a0 (eventData.amount.bind (fun q => evaluateAmount q))
  let a2 := accFactor a1 (evaluateProgram (eventData.programId.getD ""))
  let a3 := accFactor a2 (some (evaluateEventType eventData.eventType))
  let score : ℚ := if a3.2.2 > 0 then a3.2.1 / a3.2.2 else 0
  let normalizedScore := jsMin (jsMax score 0) 1
  { score := normalizedScore
    level := scoreToLevel normalizedScore
    factors := a3.1 }

end Risk

namespace Broadcaster

/-- Behaviour of a client's WebSocket sink, as observed by `sendToClient`:
`readyState === OPEN` with a succeeding `send`, an open sink whose `send`
throws, or a non-open (closed/closing) sink. -/
inductive SinkState where
  | openOk
  | openErr
  | closed
deriving DecidableEq, Repr

/-- `QueuedBroadcast` interface (the `timestamp : Date` field is a wall
clock reading and is omitted; `targetClients` is kept in `Set` insertion
order as a duplicate-free list). -/
structure QueuedBroadcast where
  id : String
  btype : String
  data : String
  targetClients : List String
  retryCount : Nat
  maxRetries : Nat
deriving DecidableEq, Repr

/-- Events emitted through `this.emit(...)`. -/
inductive BEvent where
  | clientConnected (clientId : String)
  | clientDisconnected (clientId : String)
  | messageSent (clientId btype data : String)
  | messageError (clientId btype : String)
  | broadcastQueued (broadcastId btype : String) (targetCount : Nat)
  | broadcastQueueFull (broadcastId btype : String)
  | broadcastNoTargets (broadcastId btype : String)
  | broadcastCompleted (broadcastId btype : String) (sentCount : Nat)
  | broadcastMaxRetriesExceeded (broadcastId btype : String) (failedCount : Nat)
  | queueProcessingStarted
  | queueProcessingStopped
  | queueCleared (clearedCount : Nat)
  | broadcasterClosed
deriving DecidableEq, Repr

/-- `EventBroadcaster` state.  `clients` and `messageQueue` are `Map`s kept
as insertion-ordered association lists (keys unique in reachable states);
`nextId` drives `generateId` (the `Date.now()`/`Math.random()` id source is
modelled as a fresh counter); `events` is the emission log. -/
structure BState where
  clients : List (String × SinkState)
  queue : List QueuedBroadcast
  maxQueueSize : Nat
  maxRetries : Nat
  processing : Bool
  nextId : Nat
  events : List BEvent
deriving DecidableEq, Repr

/-- Constructor: `options.maxQueueSize || 1000`, `options.maxRetries || 3`
(`0` is falsy in JS, hence the defaulting on zero). -/
def mkBroadcaster (maxQueueSize maxRetries : Nat) : BState :=
  { clients := []
    queue := []
    maxQueueSize := if maxQueueSize = 0 then 1000 else maxQueueSize
    maxRetries := if maxRetries = 0 then 3 else maxRetries
    processing := false
    nextId := 0
    events := [] }

/-- `generateId` (modelled as a counter-derived fresh string). -/
def genId (n : Nat) : String := "b-" ++ toString n

/-- `Map.set` on an association list keyed by the first component:
replace in place if the key is present, else append. -/
def mapSetClient (m : List (String × SinkState)) (k : String) (v : SinkState) :
    List (String × SinkState) :=
  if m.any (fun p => p.1 = k) then
    m.map (fun p => if p.1 = k then (k, v) else p)
  else m ++ [(k, v)]

/-- `Map.set` for the message queue, keyed by broadcast id. -/
def mapSetQueue (q : List QueuedBroadcast) (b : QueuedBroadcast) :
    List QueuedBroadcast :=
  if q.any (fun x => x.id = b.id) then
    q.map (fun x => if x.id = b.id then b else x)
  else q ++ [b]

/-- `Map.get` on the client registry. -/
def lookupClient (m : List (String × SinkState)) (k : String) : Option SinkState :=
  match m.find? (fun p => p.1 = k) with
  | some p => some p.2
  | none => none

/-- `new Set(list)`: deduplicate keeping first occurrences, in order. -/
def insertedSet (l : List String) : List String :=
  l.foldl (fun acc x => if acc.contains x then acc else acc ++ [x]) []

/-- `registerClient` (tags and joinedAt metadata are not read by any
claim-relevant operation and are omitted; the sink behaviour stands in for
the `ws` handle). -/
def registerClient (id : String) (sink : SinkState) (st : BState) : BState :=
  { st with clients := mapSetClient st.clients id sink
            events := st.events ++ [.clientConnected id] }

/-- `unregisterClient`: `false` for an unknown id, else delete and notify. -/
def unregisterClient (id : String) (st : BState) : Bool × BState :=
  match lookupClient st.clients id with
  | none => (false, st)
  | some _ =>
    (true, { st with clients := st.clients.filter (fun p => p.1 ≠ id)
                     events := st.events ++ [.clientDisconnected id] })

/-- `getClient`: the sink for an id, `null` when absent. -/
def getClient (id : String) (st : BState) : Option SinkState :=
  lookupClient st.clients id

/-- `getClientIds`. -/
def getClientIds (st : BState) : List String := st.clients.map (fun p => p.1)

/-- `getClientCount`. -/
def getClientCount (st : BState) : Nat := st.clients.length

/-- `getQueueSize`. -/
def getQueueSize (st : BState) : Nat := st.queue.length

/-- `sendToClient`: `false` for an unknown id; for a registered client,
success exactly when the sink is open and `send` does not throw, emitting
`message:sent` on success and `message:error` when `send` throws. -/
def sendToClient (clientId btype data : String) (st : BState) : Bool × BState :=
  match lookupClient st.clients clientId with
  | none => (false, st)
  | some .openOk => (true, { st with events := st.events ++ [.messageSent clientId btype data] })
  | some .closed => (false, st)
  | some .openErr => (false, { st with events := st.events ++ [.messageError clientId btype] })

/-- Outcome of `sendToClient` as a pure predicate on the registry. -/
def sendOutcome (clients : List (String × SinkState)) (clientId : String) : Bool :=
  match lookupClient clients clientId with
  | some .openOk => true
  | _ => false

/-- The per-broadcast loop of `processQueue`: send to each target in order,
returning `(sentCount, failedCount, emitted events)`. -/
def sendTargets (clients : List (String × SinkState)) (targets : List String)
    (btype data : String) : Nat × Nat × List BEvent :=
  match targets with
  | [] => (0, 0, [])
  | c :: cs =>
    let rest := sendTargets clients cs btype data
    match lookupClient clients c with
    | none => (rest.1, rest.2.1 + 1, rest.2.2)
    | some .openOk => (rest.1 + 1, rest.2.1, .messageSent c btype data :: rest.2.2)
    | some .closed => (rest.1, rest.2.1 + 1, rest.2.2)
    | some .openErr => (rest.1, rest.2.1 + 1, .messageError c btype :: rest.2.2)

/-- The body of `processQueue`'s `forEach` over the queue: each broadcast is
re-sent to its targets; zero failures deletes it with `broadcast:completed`;
otherwise `retryCount` is incremented and, at `maxRetries`, the broadcast is
dropped with `broadcast:max-retries-exceeded`. -/
def processList (clients : List (String × SinkState)) :
    List QueuedBroadcast → List QueuedBroadcast × List BEvent
  | [] => ([], [])
  | b :: rest =>
    let r := sendTargets clients b.targetClients b.btype b.data
    let tail := processList clients rest
    if r.2.1 > 0 then
      if b.retryCount + 1 ≥ b.maxRetries then
        (tail.1,
         r.2.2 ++ .broadcastMaxRetriesExceeded b.id b.btype r.2.1 :: tail.2)
      else
        ({ b with retryCount := b.retryCount + 1 } :: tail.1, r.2.2 ++ tail.2)
    else
      (tail.1, r.2.2 ++ .broadcastCompleted b.id b.btype r.1 :: tail.2)

/-- `processQueue` (one sweep of the delivery loop). -/
def processQueue (st : BState) : BState :=
  let r := processList st.clients st.queue
  { st with queue := r.1, events := st.events ++ r.2 }

/-- `addToQueue`: reject when the queue already holds `maxQueueSize`
broadcasts, else insert and emit `broadcast:queued`. -/
def addToQueue (b : QueuedBroadcast) (st : BState) : Bool × BState :=
  if st.queue.length ≥ st.maxQueueSize then (false, st)
  else
    (true,
     { st with queue := mapSetQueue st.queue b
               events := st.events ++
                 [.broadcastQueued b.id b.btype b.targetClients.length] })

/-- `broadcast`: queue a message for every currently registered client;
on rejection emit `broadcast:queue-full`; always return the broadcast id. -/
def broadcast (btype data : String) (st : BState) : String × BState :=
  let broadcastId := genId st.nextId
  let st0 := { st with nextId := st.nextId + 1 }
  let targetClients := insertedSet (getClientIds st0)
  let r := addToQueue
    { id := broadcastId, btype := btype, data := data
      targetClients := targetClients, retryCount := 0
      maxRetries := st0.maxRetries } st0
  if r.1 then (broadcastId, r.2)
  else (broadcastId, { r.2 with events := r.2.events ++ [.broadcastQueueFull broadcastId btype] })

/-- `broadcastToClients`: filter the explicit id list to registered ids; an
empty filtered set emits `broadcast:no-targets` and enqueues nothing. -/
def broadcastToClients (clientIds : List String) (btype data : String)
    (st : BState) : String × BState :=
  let broadcastId := genId st.nextId
  let st0 := { st with nextId := st.nextId + 1 }
  let targetClients :=
    insertedSet (clientIds.filter (fun id => (lookupClient st0.clients id).isSome))
  if targetClients.length = 0 then
    (broadcastId, { st0 with events := st0.events ++ [.broadcastNoTargets broadcastId btype] })
  else
    let r := addToQueue
      { id := broadcastId, btype := btype, data := data
        targetClients := targetClients, retryCount := 0
        maxRetries := st0.maxRetries } st0
    if r.1 then (broadcastId, r.2)
    else (broadcastId, { r.2 with events := r.2.events ++ [.broadcastQueueFull broadcastId btype] })

/-- `stopQueueProcessing`. -/
def stopQueueProcessing (st : BState) : BState :=
  if st.processing then
    { st with processing := false, events := st.events ++ [.queueProcessingStopped] }
  else st

/-- `startQueueProcessing` (the interval timer is modelled by the
`processing` flag; sweeps themselves are explicit `processQueue` steps). -/
def startQueueProcessing (st : BState) : BState :=
  if st.processing then st
  else { st with processing := true, events := st.events ++ [.queueProcessingStarted] }

/-- `clearQueue`. -/
def clearQueue (st : BState) : BState :=
  { st with queue := []
            events := st.events ++ [.queueCleared st.queue.length] }

/-- `closeAll`: close every sink (`ws.close` raises no event here since the
modelled close does not throw), stop processing, clear the registry, emit
`broadcaster:closed`.  The message queue is not touched.  The `code` and
`reason` arguments only parametrise the underlying `ws.close` call. -/
def closeAll (code : Nat) (reason : String) (st : BState) : BState :=
  let st1 := stopQueueProcessing st
  { st1 with clients := []
             events := st1.events ++ [.broadcasterClosed] }

end Broadcaster

namespace Normalizer

/-- `EventType` enum of the normalizer. -/
inductive EventType where
  | TRANSFER
  | TOKEN_TRANSFER
  | TOKEN_MINT
  | TOKEN_BURN
  | TOKEN_SWAP
  | NFT_TRANSFER
  | NFT_MINT
  | NFT_BURN
  | STAKE
  | UNSTAKE
  | VOTE
  | PROGRAM_INTERACTION
  | UNKNOWN
deriving DecidableEq, Repr

/-- The `parsed` payload of a parsed instruction, together with the
`program` field that `@solana/web3.js` attaches alongside it.  A raw
instruction with `parsed = none` models a `PartiallyDecodedInstruction`
(no `parsed` key at all).  The string-or-number leaves the code reads with
`?.toString()` are modelled as optional strings. -/
structure ParsedInfo where
  program : String
  ptype : String
  source : Option String := none
  destination : Option String := none
  lamports : Option Nat := none
  amountField : Option String := none
  tokenAmountAmount : Option String := none
  mint : Option String := none
deriving DecidableEq, Repr

/-- A raw instruction of the incoming transaction. -/
structure RawInstruction where
  programId : String
  parsed : Option ParsedInfo := none
  dataField : Option String := none
  accounts : List String := []
deriving DecidableEq, Repr

/-- A raw `ParsedTransactionWithMeta` restricted to the fields the
normalizer reads (`meta.fee`, `meta.err`, `blockTime`, `slot`,
`transaction.message.accountKeys/instructions/recentBlockhash`). -/
structure RawTransaction where
  accountKeys : List String
  instructions : List RawInstruction
  recentBlockhash : String := ""
  fee : Option Nat := none
  err : Bool := false
  blockTime : Option Nat := none
  slot : Nat := 0
deriving DecidableEq, Repr

/-- `InstructionEvent` interface. -/
structure InstructionEvent where
  index : Nat
  programId : String
  itype : String
  parsed : Option ParsedInfo
  raw : Option String
  accounts : List String
deriving DecidableEq, Repr

/-- `NormalizedEvent` interface (the `raw` back-pointer to the input is
kept; `metadata` is flattened to its three computed entries; the claim
fields are `etype`, `fromAddr` and `feePayerAddress` — `from` is a Lean
keyword, hence the renamings). -/
structure NormalizedEvent where
  id : String
  signature : String
  timestamp : Nat
  blockTime : Nat
  blockHeight : Option Nat
  slot : Nat
  status : String
  fromAddr : String
  toAddr : Option String
  etype : EventType
  subType : Option String
  amount : Option String
  mint : Option String
  programId : String
  instructions : List InstructionEvent
  fee : Nat
  feePayerAddress : String
  raw : RawTransaction
  metaAccountCount : Nat
  metaInstructionCount : Nat
  metaRecentBlockhash : String
deriving DecidableEq, Repr

/-- JS `a?.toString() || b` on an optional string and a string default:
`undefined` and the empty string both fall through to the default. -/
def jsOrStr (a : Option String) (b : String) : String :=
  match a with
  | some s => if s = "" then b else s
  | none => b

/-- JS `a || b` on two optional strings. -/
def jsOrOpt (a b : Option String) : Option String :=
  match a with
  | some s => if s = "" then b else some s
  | none => b

/-- Substring containment, for `String.prototype.includes`. -/
def strContains (s sub : String) : Bool :=
  decide (sub.toList <:+: s.toList)

/-- `processInstructions` (its `accountKeys` argument is unused in the TS
body — the accounts come from each instruction — so it is dropped here).
The `type` field: `'parsed' in instruction ? instruction.program : 'unknown'`,
then refined to `instruction.program || 'unknown'` when `parsed` is truthy. -/
def processInstructions (instructions : List RawInstruction) : List InstructionEvent :=
  instructions.enum.map (fun p =>
    { index := p.1
      programId := p.2.programId
      itype := match p.2.parsed with
               | some pr => if pr.program = "" then "unknown" else pr.program
               | none => "unknown"
      parsed := p.2.parsed
      raw := match p.2.dataField with
             | some d => if d = "" then none else some d
             | none => none
      accounts := p.2.accounts })

/-- Result record of `determineEventType`. -/
structure ETResult where
  etype : EventType
  subType : Option String
  fromAddr : String
  toAddr : Option String
  amount : Option String
  mint : Option String
  programId : String
deriving DecidableEq, Repr

/-- `determineEventType`: dispatch on the first instruction's parsed
program (the unused `accountKeys` parameter of the TS signature is
dropped). -/
def determineEventType (instructions : List InstructionEvent)
    (feePayerAddress : String) : ETResult :=
  let primary? := instructions.head?
  let programId := match primary? with
                   | some pi => if pi.programId = "" then "unknown" else pi.programId
                   | none => "unknown"
  let base : ETResult :=
    { etype := .UNKNOWN, subType := none, fromAddr := feePayerAddress
      toAddr := none, amount := none, mint := none, programId := programId }
  match primary? with
  | none => base
  | some pi =>
    match pi.parsed with
    | none => base
    | some parsed =>
      let program := pi.itype
      if program = "system" then
        if parsed.ptype = "transfer" then
          { base with etype := .TRANSFER
                      fromAddr := jsOrStr parsed.source feePayerAddress
                      toAddr := parsed.destination
                      amount := parsed.lamports.map (fun n => toString n) }
        else base
      else if program = "spl-token" || strContains programId "TokenzQdBNbLqP" then
        if parsed.ptype = "transfer" || parsed.ptype = "transferChecked" then
          { base with etype := .TOKEN_TRANSFER
                      fromAddr := jsOrStr parsed.source feePayerAddress
                      toAddr := parsed.destination
                      amount := jsOrOpt parsed.tokenAmountAmount parsed.amountField
                      mint := parsed.mint }
        else if parsed.ptype = "mintTo" then
          { base with etype := .TOKEN_MINT
                      mint := parsed.mint
                      amount := jsOrOpt parsed.tokenAmountAmount parsed.amountField }
        else if parsed.ptype = "burn" then
          { base with etype := .TOKEN_BURN
                      mint := parsed.mint
                      amount := jsOrOpt parsed.tokenAmountAmount parsed.amountField }
        else base
      else if strContains programId "metaqbxxU8xxxxxxxxxxxxxxxxxxxxxxxxxxxxxx" then
        if parsed.ptype = "createMetadata" || parsed.ptype = "updateMetadata" then
          { base with etype := .NFT_MINT }
        else if parsed.ptype = "burnNFT" then
          { base with etype := .NFT_BURN }
        else base
      else if program = "stake" then
        if parsed.ptype = "delegate" then { base with etype := .STAKE }
        else if parsed.ptype = "deactivate" then { base with etype := .UNSTAKE }
        else base
      else if program = "vote" then
        { base with etype := .VOTE }
      else if program ≠ "" && program ≠ "unknown" then
        { base with etype := .PROGRAM_INTERACTION, subType := some program }
      else base

/-- `normalizeTransaction`.  The `Date.now()` fallback used when
`blockTime` is falsy is the only impure read; it is passed in as `now`. -/
def normalizeTransaction (transaction : RawTransaction) (signature : String)
    (now : Nat) : NormalizedEvent :=
  let feePayerAddress := jsOrStr transaction.accountKeys.head? "unknown"
  let fee := transaction.fee.getD 0
  let status := if transaction.err then "failed" else "success"
  let instructions := processInstructions transaction.instructions
  let r := determineEventType instructions feePayerAddress
  { id := signature ++ "-" ++ toString transaction.slot
    signature := signature
    timestamp := match transaction.blockTime with
                 | some t => if t = 0 then now else t * 1000
                 | none => now
    blockTime := transaction.blockTime.getD 0
    blockHeight := none
    slot := transaction.slot
    status := status
    fromAddr := r.fromAddr
    toAddr := r.toAddr
    etype := r.etype
    subType := r.subType
    amount := r.amount
    mint := r.mint
    programId := r.programId
    instructions := instructions
    fee := fee
    feePayerAddress := feePayerAddress
    raw := transaction
    metaAccountCount := transaction.accountKeys.length
    metaInstructionCount := instructions.length
    metaRecentBlockhash := transaction.recentBlockhash }

end Normalizer

namespace Risk

/-- Concrete event with no `amount` field, a known program and a
`transfer` event type. -/
def amountAbsentEvent : EventData :=
  { signature := "sig1", timestamp := 0, amount := none
    programId := some "11111111111111111111111111111111"
    eventType := "transfer" }

/-- C2: the code and the spec disagree on an absent `amount`.
`evaluateEvent` forwards `eventData.amount ?? 0`, so the input whose
`amount` field is absent still receives an Amount Risk factor (value 0.1,
weight 0.3) in both numerator and denominator: the code yields three
factors, score 17/100 and level MINIMAL, while the spec's mean (amount
factor excluded) yields two factors, score 1/5 and level LOW. -/
theorem evaluateEvent_scores_absent_amount_as_zero :
    (evaluateEvent amountAbsentEvent).factors.length = 3 ∧
    (evaluateEvent amountAbsentEvent).factors.map (fun f => f.name) =
      ["Amount Risk", "Program Risk", "Event Type Risk"] ∧
    (evaluateEvent amountAbsentEvent).score = 17/100 ∧
    (evaluateEvent amountAbsentEvent).level = RiskLevel.MINIMAL ∧
    (specEvaluateEvent amountAbsentEvent).factors.length = 2 ∧
    (specEvaluateEvent amountAbsentEvent).score = 1/5 ∧
    (specEvaluateEvent amountAbsentEvent).level = RiskLevel.LOW ∧
    (evaluateEvent amountAbsentEvent).score ≠ (specEvaluateEvent amountAbsentEvent).score := by
  have h1 : strToLower "transfer" = "transfer" := rfl
  have h2 : strToLower "11111111111111111111111111111111" =
      "11111111111111111111111111111111" := rfl
  simp only [evaluateEvent, specEvaluateEvent, amountAbsentEvent, accFactor,
    evaluateAmount, evaluateProgram, evaluateEventType, MAX_SAFE_AMOUNT,
    SUSPICIOUS_PROGRAMS, h1, h2, jsMin, jsMax, scoreToLevel,
    Option.getD, Option.bind]
  simp
  norm_num

/-- The C3 scenario input: zero amount, unknown program, flash loan. -/
def flashLoanEvent : EventData :=
  { signature := "sig2", timestamp := 0, amount := some 0
    programId := some "unknown", eventType := "flash_loan" }

/-- C3 counterexample: for amount = 0, programId = "unknown",
eventType = "flash_loan", the weighted mean is
(0.1·0.3 + 0.7·0.35 + 0.8·0.35)/(0.3 + 0.35 + 0.35) = 111/200 = 0.555,
which is NOT ≥ 0.7, and the level is MEDIUM, not HIGH or CRITICAL. -/
theorem evaluateEvent_flashLoan_below_seven_tenths :
    ¬ (7/10 ≤ (evaluateEvent flashLoanEvent).score ∧
       ((evaluateEvent flashLoanEvent).level = RiskLevel.HIGH ∨
        (evaluateEvent flashLoanEvent).level = RiskLevel.CRITICAL)) := by
  have h1 : strToLower "flash_loan" = "flash_loan" := rfl
  have h2 : strToLower "unknown" = "unknown" := rfl
  simp only [evaluateEvent, flashLoanEvent, accFactor, evaluateAmount,
    evaluateProgram, evaluateEventType, MAX_SAFE_AMOUNT, SUSPICIOUS_PROGRAMS,
    h1, h2, jsMin, jsMax, scoreToLevel, Option.getD]
  simp
  norm_num

/-- C3 (amended): for amount = 0, programId = "unknown",
eventType = "flash_loan", the weighted mean yields score 111/200 = 0.555
(below 0.7) and the level is MEDIUM. -/
theorem evaluateEvent_flashLoan_score_and_level :
    (evaluateEvent flashLoanEvent).score = 111/200 ∧
    (evaluateEvent flashLoanEvent).score < 7/10 ∧
    (evaluateEvent flashLoanEvent).level = RiskLevel.MEDIUM := by
  have h1 : strToLower "flash_loan" = "flash_loan" := rfl
  have h2 : strToLower "unknown" = "unknown" := rfl
  simp only [evaluateEvent, flashLoanEvent, accFactor, evaluateAmount,
    evaluateProgram, evaluateEventType, MAX_SAFE_AMOUNT, SUSPICIOUS_PROGRAMS,
    h1, h2, jsMin, jsMax, scoreToLevel, Option.getD]
  simp
  norm_num

end Risk

namespace Broadcaster

/-- Deleting a key from the registry makes lookups of that key miss. -/
theorem lookupClient_filter_self (m : List (String × SinkState)) (k : String) :
    lookupClient (m.filter (fun p => p.1 ≠ k)) k = none := by
  induction m with
  | nil => rfl
  | cons p rest ih =>
    by_cases h : p.1 = k
    · simpa [List.filter_cons, h] using ih
    · simp [lookupClient, List.filter_cons, h, List.find?] at ih ⊢
      exact ih

/-- C8: for a registered client id, `unregisterClient` returns `true`,
a subsequent `getClient` of that id returns `none`, and a second
consecutive `unregisterClient` of the same id returns `false`. -/
theorem unregister_then_getClient_none (st : BState) (id : String)
    (h : (lookupClient st.clients id).isSome) :
    (unregisterClient id st).1 = true ∧
    getClient id (unregisterClient id st).2 = none ∧
    (unregisterClient id (unregisterClient id st).2).1 = false := by
  obtain ⟨s, hs⟩ := Option.isSome_iff_exists.mp h
  refine ⟨?_, ?_, ?_⟩
  · simp only [unregisterClient, hs]
  · simp only [unregisterClient, hs, getClient]
    exact lookupClient_filter_self st.clients id
  · simp only [unregisterClient, hs, lookupClient_filter_self]

/-- C8 witness: a concrete registered client. -/
theorem unregister_then_getClient_none_witness :
    ((lookupClient (BState.clients
        { clients := [("alice", SinkState.openOk)], queue := [],
          maxQueueSize := 10, maxRetries := 3, processing := false,
          nextId := 0, events := [] }) "alice").isSome) ∧
    (unregisterClient "alice"
        { clients := [("alice", SinkState.openOk)], queue := [],
          maxQueueSize := 10, maxRetries := 3, processing := false,
          nextId := 0, events := [] }).1 = true := by
  refine ⟨by decide, ?_⟩
  exact (unregister_then_getClient_none
    { clients := [("alice", SinkState.openOk)], queue := [],
      maxQueueSize := 10, maxRetries := 3, processing := false,
      nextId := 0, events := [] } "alice" (by decide)).1

/-- C9: `closeAll` clears the client registry and stops queue processing,
but leaves the message queue untouched: the queue (and hence
`getQueueSize`) after `closeAll` is exactly the queue before, and every
broadcast pending beforehand is still pending. -/
theorem closeAll_preserves_queue (code : Nat) (reason : String) (st : BState) :
    (closeAll code reason st).queue = st.queue ∧
    getQueueSize (closeAll code reason st) = getQueueSize st ∧
    (closeAll code reason st).clients = [] ∧
    (closeAll code reason st).processing = false ∧
    ∀ b ∈ st.queue, b ∈ (closeAll code reason st).queue := by
  unfold closeAll stopQueueProcessing getQueueSize
  by_cases h : st.processing <;> simp [h]

end Broadcaster

namespace Broadcaster

/-- A queued broadcast whose only target, "ghost", is not registered. -/
def ghostBroadcast : QueuedBroadcast :=
  { id := "x1", btype := "t", data := "d", targetClients := ["ghost"]
    retryCount := 0, maxRetries := 2 }

/-- A state with an empty client registry and `ghostBroadcast` queued. -/
def ghostState : BState :=
  { clients := [], queue := [ghostBroadcast], maxQueueSize := 10
    maxRetries := 2, processing := true, nextId := 0, events := [] }

/-- C1 counterexample: a target id that is not registered at send time IS
counted toward the sweep's failure tally.  With no clients registered and a
broadcast targeting only the departed id "ghost", the sweep reports one
failure (no sink was closed or errored — there are no sinks at all) and
increments `retryCount` instead of completing the broadcast. -/
theorem processQueue_counts_unregistered_as_failure :
    lookupClient ghostState.clients "ghost" = none ∧
    sendTargets ghostState.clients ghostBroadcast.targetClients "t" "d" = (0, 1, []) ∧
    (processQueue ghostState).queue = [{ ghostBroadcast with retryCount := 1 }] ∧
    (processQueue ghostState).events = [] := by
  refine ⟨rfl, rfl, rfl, rfl⟩

/-- C1 (amended): an unregistered target id is NOT skipped by the failure
tally: `sendToClient` returns `false` (with no state change) for an id
missing from the registry, and a sweep's failure count equals the number of
targets whose send fails — those unregistered plus those whose sink is
closed or errors — while the sent count counts the open, succeeding sinks. -/
theorem sendTargets_failed_counts_unregistered (st : BState)
    (clientId btype data : String) (targets : List String)
    (h : lookupClient st.clients clientId = none) :
    sendToClient clientId btype data st = (false, st) ∧
    (sendTargets st.clients targets btype data).2.1 =
      targets.countP (fun c => !(sendOutcome st.clients c)) ∧
    (sendTargets st.clients targets btype data).1 =
      targets.countP (fun c => sendOutcome st.clients c) := by
  refine ⟨by simp [sendToClient, h], ?_, ?_⟩
  · induction targets with
    | nil => rfl
    | cons c cs ih =>
      simp only [sendTargets, List.countP_cons]
      cases hc : lookupClient st.clients c with
      | none => simp [sendOutcome, hc, ih]
      | some s => cases s <;> simp [sendOutcome, hc, ih]
  · induction targets with
    | nil => rfl
    | cons c cs ih =>
      simp only [sendTargets, List.countP_cons]
      cases hc : lookupClient st.clients c with
      | none => simp [sendOutcome, hc, ih]
      | some s => cases s <;> simp [sendOutcome, hc, ih]

/-- C1 witness: instantiate at the empty registry and a single target. -/
theorem sendTargets_failed_counts_unregistered_witness :
    lookupClient (BState.clients ghostState) "ghost" = none ∧
    sendToClient "ghost" "t" "d" ghostState = (false, ghostState) := by
  refine ⟨by decide, ?_⟩
  exact (sendTargets_failed_counts_unregistered ghostState "ghost" "t" "d" ["ghost"]
    (by decide)).1

/-- C6: an explicit-id-list broadcast whose id list, after filtering to
registered ids, is empty returns the generated broadcast id, enqueues
nothing and performs zero sends — the only effect is a
`broadcast:no-targets` notification (and the consumed id). -/
theorem broadcastToClients_filtered_empty_noop (st : BState)
    (ids : List String) (btype data : String)
    (h : ids.filter (fun i => (lookupClient st.clients i).isSome) = []) :
    broadcastToClients ids btype data st =
      (genId st.nextId,
       { st with nextId := st.nextId + 1
                 events := st.events ++ [.broadcastNoTargets (genId st.nextId) btype] }) ∧
    (broadcastToClients ids btype data st).2.queue = st.queue := by
  constructor
  · simp [broadcastToClients, h, insertedSet]
  · simp [broadcastToClients, h, insertedSet]

/-- C6 witness: one registered client, a target list naming nobody
registered. -/
theorem broadcastToClients_filtered_empty_noop_witness :
    (["zz"].filter (fun i =>
        (lookupClient (BState.clients
          { clients := [("a", SinkState.openOk)], queue := [], maxQueueSize := 4,
            maxRetries := 3, processing := false, nextId := 7, events := [] }) i).isSome) = []) ∧
    (broadcastToClients ["zz"] "t" "d"
        { clients := [("a", SinkState.openOk)], queue := [], maxQueueSize := 4,
          maxRetries := 3, processing := false, nextId := 7, events := [] }).2.queue = [] := by
  refine ⟨by decide, ?_⟩
  exact (broadcastToClients_filtered_empty_noop
    { clients := [("a", SinkState.openOk)], queue := [], maxQueueSize := 4,
      maxRetries := 3, processing := false, nextId := 7, events := [] }
    ["zz"] "t" "d" (by decide)).2

end Broadcaster

namespace Broadcaster

/-- C10: with zero registered clients, the broadcast-to-all operation still
enqueues a broadcast with an empty target set (one `broadcast:queued`
notification with target count 0, no `broadcast:no-targets` notification),
and the next sweep removes it as completed with a sent count of zero;
by contrast the explicit-id-list operation on the same state emits
`broadcast:no-targets` and enqueues nothing. -/
theorem broadcast_no_clients_enqueues_empty_targets (st : BState)
    (btype data : String) (hc : st.clients = []) (hq : st.queue = [])
    (hm : 0 < st.maxQueueSize) :
    (broadcast btype data st).1 = genId st.nextId ∧
    (broadcast btype data st).2.queue =
      [{ id := genId st.nextId, btype := btype, data := data, targetClients := [],
         retryCount := 0, maxRetries := st.maxRetries }] ∧
    (broadcast btype data st).2.events =
      st.events ++ [.broadcastQueued (genId st.nextId) btype 0] ∧
    (processQueue (broadcast btype data st).2).queue = [] ∧
    (processQueue (broadcast btype data st).2).events =
      st.events ++ [.broadcastQueued (genId st.nextId) btype 0,
                    .broadcastCompleted (genId st.nextId) btype 0] ∧
    (broadcastToClients [] btype data st).2.queue = [] ∧
    (broadcastToClients [] btype data st).2.events =
      st.events ++ [.broadcastNoTargets (genId st.nextId) btype] := by
  have hm0 : st.maxQueueSize ≠ 0 := by omega
  refine ⟨?_, ?_, ?_, ?_, ?_, ?_, ?_⟩ <;>
    simp [broadcast, broadcastToClients, addToQueue, processQueue, processList,
      sendTargets, mapSetQueue, insertedSet, getClientIds, hc, hq, hm0]

/-- C10 witness: a fresh broadcaster with default-free capacity 5. -/
theorem broadcast_no_clients_enqueues_empty_targets_witness :
    (BState.clients (mkBroadcaster 5 3) = []) ∧
    (BState.queue (mkBroadcaster 5 3) = []) ∧
    (0 < BState.maxQueueSize (mkBroadcaster 5 3)) ∧
    (broadcast "t" "d" (mkBroadcaster 5 3)).2.queue =
      [{ id := genId 0, btype := "t", data := "d", targetClients := [],
         retryCount := 0, maxRetries := 3 }] := by
  refine ⟨by decide, by decide, by decide, ?_⟩
  have h := (broadcast_no_clients_enqueues_empty_targets (mkBroadcaster 5 3)
    "t" "d" (by decide) (by decide) (by decide)).2.1
  simpa using h

end Broadcaster

namespace Broadcaster

/-- The public operations of the broadcaster, for stating state invariants
over arbitrary operation sequences. -/
inductive Op where
  | register (id : String) (sink : SinkState)
  | unregister (id : String)
  | bcast (btype data : String)
  | bcastTo (ids : List String) (btype data : String)
  | send (clientId btype data : String)
  | sweep
  | startProcessing
  | stopProcessing
  | clear
  | close (code : Nat) (reason : String)
deriving DecidableEq, Repr

/-- Apply one operation (discarding returned values). -/
def step (op : Op) (st : BState) : BState :=
  match op with
  | .register id sink => registerClient id sink st
  | .unregister id => (unregisterClient id st).2
  | .bcast btype data => (broadcast btype data st).2
  | .bcastTo ids btype data => (broadcastToClients ids btype data st).2
  | .send clientId btype data => (sendToClient clientId btype data st).2
  | .sweep => processQueue st
  | .startProcessing => startQueueProcessing st
  | .stopProcessing => stopQueueProcessing st
  | .clear => clearQueue st
  | .close code reason => closeAll code reason st

/-- Run a sequence of operations left to right. -/
def runOps (ops : List Op) (st : BState) : BState :=
  match ops with
  | [] => st
  | op :: rest => runOps rest (step op st)

/-- `Map.set` never grows the queue by more than one entry. -/
theorem mapSetQueue_length (q : List QueuedBroadcast) (b : QueuedBroadcast) :
    (mapSetQueue q b).length ≤ q.length + 1 := by
  unfold mapSetQueue
  by_cases h : q.any (fun x => x.id = b.id) <;> simp [h]

/-- A sweep never grows the queue: each broadcast is kept or dropped. -/
theorem processList_length_le (clients : List (String × SinkState))
    (q : List QueuedBroadcast) :
    (processList clients q).1.length ≤ q.length := by
  induction q with
  | nil => simp [processList]
  | cons b rest ih =>
    simp only [processList]
    by_cases h1 : (sendTargets clients b.targetClients b.btype b.data).2.1 > 0 <;>
      by_cases h2 : b.retryCount + 1 ≥ b.maxRetries <;>
      simp [h1, h2, List.length_cons] <;> omega

/-- `sendToClient` never touches the queue. -/
theorem sendToClient_queue (clientId btype data : String) (st : BState) :
    (sendToClient clientId btype data st).2.queue = st.queue := by
  unfold sendToClient
  cases h : lookupClient st.clients clientId with
  | none => rfl
  | some s => cases s <;> simp [h]

/-- No operation changes `maxQueueSize`. -/
theorem step_maxQueueSize (op : Op) (st : BState) :
    (step op st).maxQueueSize = st.maxQueueSize := by
  cases op with
  | register id sink => rfl
  | unregister id =>
    unfold step unregisterClient
    cases h : lookupClient st.clients id <;> simp [h]
  | bcast btype data =>
    unfold step broadcast addToQueue
    by_cases h : ({ st with nextId := st.nextId + 1 } : BState).queue.length ≥
        st.maxQueueSize <;> simp [h]
  | bcastTo ids btype data =>
    unfold step broadcastToClients addToQueue
    by_cases h0 : (insertedSet (ids.filter (fun id =>
        (lookupClient ({ st with nextId := st.nextId + 1 } : BState).clients id).isSome))).length = 0 <;>
      by_cases h : ({ st with nextId := st.nextId + 1 } : BState).queue.length ≥
        st.maxQueueSize <;> simp [h0, h]
  | send clientId btype data =>
    simp only [step]
    rw [show (sendToClient clientId btype data st).2.maxQueueSize = st.maxQueueSize from ?_]
    unfold sendToClient
    cases h : lookupClient st.clients clientId with
    | none => rfl
    | some s => cases s <;> simp [h]
  | sweep => rfl
  | startProcessing =>
    unfold step startQueueProcessing
    by_cases h : st.processing <;> simp [h]
  | stopProcessing =>
    unfold step stopQueueProcessing
    by_cases h : st.processing <;> simp [h]
  | clear => rfl
  | close code reason =>
    unfold step closeAll stopQueueProcessing
    by_cases h : st.processing <;> simp [h]

/-- One operation preserves the capacity bound on the queue. -/
theorem step_queue_bound (op : Op) (st : BState)
    (h : st.queue.length ≤ st.maxQueueSize) :
    (step op st).queue.length ≤ st.maxQueueSize := by
  cases op with
  | register id sink => simpa [step, registerClient] using h
  | unregister id =>
    unfold step unregisterClient
    cases hc : lookupClient st.clients id <;> simpa [hc] using h
  | bcast btype data =>
    unfold step broadcast addToQueue
    by_cases hfull : ({ st with nextId := st.nextId + 1 } : BState).queue.length ≥
        st.maxQueueSize
    · simpa [hfull] using h
    · simp only [ge_iff_le, not_le] at hfull
      simp [Nat.not_le.mpr hfull]
      exact le_trans (mapSetQueue_length _ _) (by omega)
  | bcastTo ids btype data =>
    unfold step broadcastToClients addToQueue
    by_cases h0 : (insertedSet (ids.filter (fun id =>
        (lookupClient ({ st with nextId := st.nextId + 1 } : BState).clients id).isSome))).length = 0
    · simpa [h0] using h
    · by_cases hfull : ({ st with nextId := st.nextId + 1 } : BState).queue.length ≥
          st.maxQueueSize
      · simpa [h0, hfull] using h
      · simp only [ge_iff_le, not_le] at hfull
        simp [h0, Nat.not_le.mpr hfull]
        exact le_trans (mapSetQueue_length _ _) (by omega)
  | send clientId btype data =>
    have := sendToClient_queue clientId btype data st
    simp only [step]
    rw [this]; exact h
  | sweep =>
    have := processList_length_le st.clients st.queue
    simp only [step, processQueue]
    omega
  | startProcessing =>
    unfold step startQueueProcessing
    by_cases hp : st.processing <;> simpa [hp] using h
  | stopProcessing =>
    unfold step stopQueueProcessing
    by_cases hp : st.processing <;> simpa [hp] using h
  | clear => simpa [step, clearQueue] using Nat.zero_le _
  | close code reason =>
    unfold step closeAll stopQueueProcessing
    by_cases hp : st.processing <;> simpa [hp] using h

end Broadcaster

namespace Broadcaster

/-- Over a whole operation sequence the bound and the capacity persist. -/
theorem runOps_queue_bound (ops : List Op) (st : BState)
    (h : st.queue.length ≤ st.maxQueueSize) :
    (runOps ops st).queue.length ≤ (runOps ops st).maxQueueSize ∧
    (runOps ops st).maxQueueSize = st.maxQueueSize := by
  induction ops generalizing st with
  | nil => exact ⟨h, rfl⟩
  | cons op rest ih =>
    have h1 := step_queue_bound op st h
    have h2 := step_maxQueueSize op st
    have := ih (step op st) (by rw [h2]; exact h1)
    simpa [runOps, h2] using this

/-- C5: the queue never exceeds `maxQueueSize` under any operation
sequence; an enqueue at `maxQueueSize - 1` items succeeds (the broadcast
enters the queue, with a `broadcast:queued` notification and no
`broadcast:queue-full`); an enqueue at `maxQueueSize` items is rejected
without evicting or growing anything, and the caller is synchronously
notified with the broadcast id and type. -/
theorem queue_capacity_invariant (ops : List Op) (st st1 st2 : BState)
    (btype data : String)
    (h : st.queue.length ≤ st.maxQueueSize)
    (h1 : st1.queue.length = st1.maxQueueSize - 1) (h1p : 0 < st1.maxQueueSize)
    (h2 : st2.queue.length = st2.maxQueueSize) :
    (runOps ops st).queue.length ≤ st.maxQueueSize ∧
    ((broadcast btype data st1).2.queue =
        mapSetQueue st1.queue
          { id := genId st1.nextId, btype := btype, data := data
            targetClients := insertedSet (getClientIds st1)
            retryCount := 0, maxRetries := st1.maxRetries } ∧
      (broadcast btype data st1).2.events =
        st1.events ++ [.broadcastQueued (genId st1.nextId) btype
          (insertedSet (getClientIds st1)).length]) ∧
    ((broadcast btype data st2).2.queue = st2.queue ∧
      (broadcast btype data st2).2.events =
        st2.events ++ [.broadcastQueueFull (genId st2.nextId) btype]) := by
  refine ⟨?_, ?_, ?_⟩
  · have := runOps_queue_bound ops st h
    omega
  · have hlt : ¬ (st1.queue.length ≥ st1.maxQueueSize) := by omega
    constructor <;> simp [broadcast, addToQueue, getClientIds, hlt]
  · have hge : st2.queue.length ≥ st2.maxQueueSize := by omega
    constructor <;> simp [broadcast, addToQueue, hge]

/-- A queued broadcast literal for exercising capacity two. -/
def capBroadcast (i : String) : QueuedBroadcast :=
  { id := i, btype := "t", data := "d", targetClients := []
    retryCount := 0, maxRetries := 1 }

/-- A capacity-2 state holding one queued broadcast. -/
def capState1 : BState :=
  { clients := [], queue := [capBroadcast "q1"], maxQueueSize := 2
    maxRetries := 1, processing := false, nextId := 3, events := [] }

/-- A capacity-2 state holding two queued broadcasts (full). -/
def capState2 : BState :=
  { clients := [], queue := [capBroadcast "q1", capBroadcast "q2"], maxQueueSize := 2
    maxRetries := 1, processing := false, nextId := 3, events := [] }

/-- C5 witness: capacity 2; a state holding one broadcast accepts another,
a state holding two rejects. -/
theorem queue_capacity_invariant_witness :
    (BState.queue (mkBroadcaster 2 1)).length ≤ BState.maxQueueSize (mkBroadcaster 2 1) ∧
    (runOps [Op.bcast "t" "d"] (mkBroadcaster 2 1)).queue.length ≤
      BState.maxQueueSize (mkBroadcaster 2 1) := by
  refine ⟨by decide, ?_⟩
  exact (queue_capacity_invariant [Op.bcast "t" "d"] (mkBroadcaster 2 1)
    capState1 capState2 "t" "d" (by decide) (by decide) (by decide) (by decide)).1

end Broadcaster


namespace Broadcaster

/-- Iterate `processQueue` (the periodic delivery loop's sweeps). -/
def sweeps : Nat → BState → BState
  | 0, st => st
  | k + 1, st => sweeps k (processQueue st)

/-- Peeling the last sweep instead of the first. -/
theorem sweeps_succ_out (k : Nat) (st : BState) :
    sweeps (k + 1) st = processQueue (sweeps k st) := by
  induction k generalizing st with
  | zero => rfl
  | succ k ih =>
    rw [show sweeps (k + 1 + 1) st = sweeps (k + 1) (processQueue st) from rfl]
    rw [ih (processQueue st)]
    rw [show sweeps (k + 1) st = sweeps k (processQueue st) from rfl]

/-- How many `message:sent` events a given client has received
(its count of confirmed deliveries). -/
def countSentTo (clientId : String) (evs : List BEvent) : Nat :=
  evs.countP (fun e => match e with
    | .messageSent c _ _ => c == clientId
    | _ => false)

/-- Registry with clients "a" and "c" healthy and "b" of behaviour `fb`. -/
def c4Clients (fb : SinkState) : List (String × SinkState) :=
  [("a", .openOk), ("b", fb), ("c", .openOk)]

/-- The queued broadcast of the three-client scenario. -/
def c4Broadcast (btype data : String) (r m : Nat) : QueuedBroadcast :=
  { id := "bc", btype := btype, data := data, targetClients := ["a", "b", "c"]
    retryCount := r, maxRetries := m }

/-- The three-client scenario state with retry count `r`. -/
def c4State (fb : SinkState) (btype data : String) (r m : Nat)
    (evs : List BEvent) : BState :=
  { clients := c4Clients fb, queue := [c4Broadcast btype data r m]
    maxQueueSize := 10, maxRetries := m, processing := true, nextId := 1
    events := evs }

/-- The delivery events of one sweep over targets a, b, c. -/
def c4SendEvents (fb : SinkState) (btype data : String) : List BEvent :=
  match fb with
  | .openOk => [.messageSent "a" btype data, .messageSent "b" btype data,
                .messageSent "c" btype data]
  | .openErr => [.messageSent "a" btype data, .messageError "b" btype,
                 .messageSent "c" btype data]
  | .closed => [.messageSent "a" btype data, .messageSent "c" btype data]

/-- `k` consecutive sweeps' worth of delivery events. -/
def c4RepEvents (fb : SinkState) (btype data : String) : Nat → List BEvent
  | 0 => []
  | k + 1 => c4SendEvents fb btype data ++ c4RepEvents fb btype data k

/-- Identical event blocks commute across append. -/
theorem c4RepEvents_comm (fb : SinkState) (btype data : String) (k : Nat) :
    c4RepEvents fb btype data k ++ c4SendEvents fb btype data =
      c4SendEvents fb btype data ++ c4RepEvents fb btype data k := by
  induction k with
  | zero => simp [c4RepEvents]
  | succ k ih => simp only [c4RepEvents, List.append_assoc, ih]

/-- One sweep's sends in the scenario: 2 sent, 1 failed when b fails. -/
theorem sendTargets_c4 (fb : SinkState) (hfb : fb ≠ .openOk) (btype data : String) :
    sendTargets (c4Clients fb) ["a", "b", "c"] btype data =
      (2, 1, c4SendEvents fb btype data) := by
  cases fb with
  | openOk => exact absurd rfl hfb
  | openErr => rfl
  | closed => rfl

/-- One sweep of the scenario state: sends to all three original targets,
then either re-queues with `retryCount + 1` or (at `maxRetries`) drops with
the max-retries-exceeded notification carrying the failing count 1. -/
theorem processQueue_c4_step (fb : SinkState) (hfb : fb ≠ .openOk)
    (btype data : String) (r m : Nat) (evs : List BEvent) :
    processQueue (c4State fb btype data r m evs) =
      if r + 1 ≥ m then
        { c4State fb btype data 0 m (evs ++ c4SendEvents fb btype data ++
            [.broadcastMaxRetriesExceeded "bc" btype 1]) with queue := [] }
      else c4State fb btype data (r + 1) m (evs ++ c4SendEvents fb btype data) := by
  simp only [processQueue, c4State, processList, c4Broadcast]
  rw [sendTargets_c4 fb hfb btype data]
  by_cases hr : r + 1 ≥ m <;> simp [hr, c4State, c4Broadcast]

/-- Before the last sweep: `k` sweeps just accumulate retries and sends. -/
theorem sweeps_c4_accumulate (fb : SinkState) (hfb : fb ≠ .openOk)
    (btype data : String) (m : Nat) :
    ∀ k r evs, r + k < m →
      sweeps k (c4State fb btype data r m evs) =
        c4State fb btype data (r + k) m (evs ++ c4RepEvents fb btype data k) := by
  intro k
  induction k with
  | zero => intro r evs _; simp [sweeps, c4RepEvents]
  | succ k ih =>
    intro r evs hrm
    have hr : ¬ (r + 1 ≥ m) := by omega
    rw [show sweeps (k + 1) (c4State fb btype data r m evs) =
        sweeps k (processQueue (c4State fb btype data r m evs)) from rfl]
    rw [processQueue_c4_step fb hfb btype data r m evs, if_neg hr]
    rw [ih (r + 1) (evs ++ c4SendEvents fb btype data) (by omega)]
    rw [show r + 1 + k = r + (k + 1) from by omega]
    simp only [c4RepEvents, List.append_assoc]

/-- The full run: after exactly `maxRetries` sweeps the broadcast is gone
and the event log holds `maxRetries` sweeps of sends plus the final
max-retries-exceeded notification. -/
theorem sweeps_c4_full (fb : SinkState) (hfb : fb ≠ .openOk)
    (btype data : String) (m : Nat) (hm : 1 ≤ m) :
    sweeps m (c4State fb btype data 0 m []) =
      { c4State fb btype data 0 m (c4RepEvents fb btype data m ++
          [.broadcastMaxRetriesExceeded "bc" btype 1]) with queue := [] } := by
  obtain ⟨k, rfl⟩ : ∃ k, m = k + 1 := ⟨m - 1, by omega⟩
  rw [sweeps_succ_out]
  have hpart := sweeps_c4_accumulate fb hfb btype data (k + 1) k 0 [] (by omega)
  simp only [Nat.zero_add, List.nil_append] at hpart
  rw [hpart]
  rw [processQueue_c4_step fb hfb btype data k (k + 1) (c4RepEvents fb btype data k),
    if_pos (by omega)]
  simp only [c4State, c4RepEvents, BState.mk.injEq, and_true, true_and]
  rw [c4RepEvents_comm]


/-- `countSentTo` distributes over append. -/
theorem countSentTo_append (cid : String) (l1 l2 : List BEvent) :
    countSentTo cid (l1 ++ l2) = countSentTo cid l1 + countSentTo cid l2 := by
  simp [countSentTo, List.countP_append]

/-- Per-client delivery counts over one sweep's send events. -/
theorem countSentTo_c4SendEvents (fb : SinkState) (hfb : fb ≠ .openOk)
    (btype data : String) :
    countSentTo "a" (c4SendEvents fb btype data) = 1 ∧
    countSentTo "b" (c4SendEvents fb btype data) = 0 ∧
    countSentTo "c" (c4SendEvents fb btype data) = 1 := by
  cases fb with
  | openOk => exact absurd rfl hfb
  | openErr => exact ⟨rfl, rfl, rfl⟩
  | closed => exact ⟨rfl, rfl, rfl⟩

/-- Per-client delivery counts over `k` sweeps' events: the two healthy
clients get one copy per sweep, the failing client none. -/
theorem countSentTo_c4RepEvents (fb : SinkState) (hfb : fb ≠ .openOk)
    (btype data : String) (k : Nat) :
    countSentTo "a" (c4RepEvents fb btype data k) = k ∧
    countSentTo "b" (c4RepEvents fb btype data k) = 0 ∧
    countSentTo "c" (c4RepEvents fb btype data k) = k := by
  induction k with
  | zero => exact ⟨rfl, rfl, rfl⟩
  | succ k ih =>
    obtain ⟨ha, hb, hc⟩ := ih
    obtain ⟨hsa, hsb, hsc⟩ := countSentTo_c4SendEvents fb hfb btype data
    refine ⟨?_, ?_, ?_⟩ <;>
      simp only [c4RepEvents, countSentTo_append, ha, hb, hc, hsa, hsb, hsc] <;>
      omega

/-- No max-retries notification occurs among the send events. -/
theorem c4RepEvents_no_maxRetries (fb : SinkState) (btype data : String) (k : Nat) :
    (c4RepEvents fb btype data k).countP
      (fun e => e == BEvent.broadcastMaxRetriesExceeded "bc" btype 1) = 0 := by
  induction k with
  | zero => rfl
  | succ k ih =>
    cases fb <;>
      simp [c4RepEvents, c4SendEvents, List.countP_append, List.countP_cons, ih]

/-- C4: in the three-client scenario (clients a, c healthy, b's sink always
failing, one queued broadcast targeting all three, `maxRetries = m ≥ 1`):
every sweep before the m-th re-sends to all original targets and leaves the
broadcast queued with `retryCount` incremented to the sweep number; after
exactly m sweeps the broadcast is dropped with exactly one
max-retries-exceeded notification, the failing client has zero confirmed
deliveries, and each healthy client received the payload once per sweep —
m duplicate copies; with all sinks healthy a single sweep instead removes
the broadcast with a completion notification. -/
theorem broadcast_retry_until_max_retries (fb : SinkState) (btype data : String)
    (m : Nat) (hfb : fb ≠ .openOk) (hm : 1 ≤ m) :
    (∀ k, k < m →
        (sweeps k (c4State fb btype data 0 m [])).queue =
          [c4Broadcast btype data k m]) ∧
    (sweeps m (c4State fb btype data 0 m [])).queue = [] ∧
    countSentTo "a" (sweeps m (c4State fb btype data 0 m [])).events = m ∧
    countSentTo "b" (sweeps m (c4State fb btype data 0 m [])).events = 0 ∧
    countSentTo "c" (sweeps m (c4State fb btype data 0 m [])).events = m ∧
    (sweeps m (c4State fb btype data 0 m [])).events.countP
        (fun e => e == BEvent.broadcastMaxRetriesExceeded "bc" btype 1) = 1 ∧
    processQueue (c4State .openOk btype data 0 m []) =
      { c4State .openOk btype data 0 m
          [.messageSent "a" btype data, .messageSent "b" btype data,
           .messageSent "c" btype data,
           .broadcastCompleted "bc" btype 3] with queue := [] } := by
  have hfull := sweeps_c4_full fb hfb btype data m hm
  obtain ⟨ha, hb, hc⟩ := countSentTo_c4RepEvents fb hfb btype data m
  refine ⟨?_, ?_, ?_, ?_, ?_, ?_, ?_⟩
  · intro k hk
    rw [sweeps_c4_accumulate fb hfb btype data m k 0 [] (by omega)]
    simp [c4State]
  · rw [hfull]
  · rw [hfull]
    show countSentTo "a" (c4RepEvents fb btype data m ++
      [BEvent.broadcastMaxRetriesExceeded "bc" btype 1]) = m
    rw [countSentTo_append, ha]
    rfl
  · rw [hfull]
    show countSentTo "b" (c4RepEvents fb btype data m ++
      [BEvent.broadcastMaxRetriesExceeded "bc" btype 1]) = 0
    rw [countSentTo_append, hb]
    rfl
  · rw [hfull]
    show countSentTo "c" (c4RepEvents fb btype data m ++
      [BEvent.broadcastMaxRetriesExceeded "bc" btype 1]) = m
    rw [countSentTo_append, hc]
    rfl
  · rw [hfull]
    show (c4RepEvents fb btype data m ++
        [BEvent.broadcastMaxRetriesExceeded "bc" btype 1]).countP
      (fun e => e == BEvent.broadcastMaxRetriesExceeded "bc" btype 1) = 1
    rw [List.countP_append, c4RepEvents_no_maxRetries]
    simp
  · simp only [processQueue, c4State, processList, c4Broadcast]
    rw [show sendTargets (c4Clients .openOk) ["a", "b", "c"] btype data =
        (3, 0, [.messageSent "a" btype data, .messageSent "b" btype data,
                .messageSent "c" btype data]) from rfl]
    simp [c4State, c4Broadcast]

/-- C4 witness: concrete run with a closed failing sink and three retries. -/
theorem broadcast_retry_until_max_retries_witness :
    (SinkState.closed ≠ SinkState.openOk) ∧ (1 ≤ 3) ∧
    (sweeps 3 (c4State .closed "t" "d" 0 3 [])).queue = [] ∧
    countSentTo "b" (sweeps 3 (c4State .closed "t" "d" 0 3 [])).events = 0 := by
  refine ⟨by decide, by decide, ?_, ?_⟩
  · exact (broadcast_retry_until_max_retries .closed "t" "d" 3 (by decide) (by decide)).2.1
  · exact (broadcast_retry_until_max_retries .closed "t" "d" 3 (by decide) (by decide)).2.2.2.1

end Broadcaster

namespace Normalizer

/-- C7: `normalize` is total and pure — every raw transaction yields a
`NormalizedEvent` carrying the given signature, with no failure path (the
sole impure read, the `Date.now()` fallback for a falsy `blockTime`, is the
explicit `now` parameter) — and whenever the transaction's first
instruction belongs to an unrecognized program (the parser attached no
parsed info to it; a parsed instruction names a program the parser
recognized), or there are no instructions at all, the result has
`type = unknown` and `from = feePayerAddress`. -/
theorem normalize_total_and_unparsed_unknown (tx : RawTransaction)
    (signature : String) (now : Nat)
    (h : tx.instructions.head?.bind RawInstruction.parsed = none) :
    (normalizeTransaction tx signature now).signature = signature ∧
    (normalizeTransaction tx signature now).etype = EventType.UNKNOWN ∧
    (normalizeTransaction tx signature now).fromAddr =
      (normalizeTransaction tx signature now).feePayerAddress := by
  refine ⟨rfl, ?_, ?_⟩ <;>
  · cases htx : tx.instructions with
    | nil =>
      simp [normalizeTransaction, processInstructions, determineEventType, htx]
    | cons i rest =>
      rw [htx] at h
      have hp : i.parsed = none := by simpa using h
      simp [normalizeTransaction, processInstructions, determineEventType,
        htx, List.enum_cons, hp]

/-- C7 witness: a transaction whose only instruction is partially decoded
(no parsed info). -/
theorem normalize_total_and_unparsed_unknown_witness :
    (RawTransaction.instructions
        { accountKeys := ["payerW"],
          instructions := [{ programId := "SomeProgram1111" }] }).head?.bind
      RawInstruction.parsed = none ∧
    (normalizeTransaction
        { accountKeys := ["payerW"],
          instructions := [{ programId := "SomeProgram1111" }] } "sigW" 5).etype =
      EventType.UNKNOWN := by
  refine ⟨by decide, ?_⟩
  exact (normalize_total_and_unparsed_unknown
    { accountKeys := ["payerW"], instructions := [{ programId := "SomeProgram1111" }] }
    "sigW" 5 (by decide)).2.1

end Normalizer
